import Mathlib

/-!
Verification of the MCQ-generator frontend (mcq_generator_final).

Shallow embedding of the scoring, grading, export, API-wrapper and
WebSocket logic of the React-Native frontend, together with theorems
settling the specification claims about it.

Conventions used throughout:
* JS strings are Lean `String`s; `===` on strings is Lean equality.
* JS numbers used as counts/indices are `Nat`; `Math.round` on a
  nonnegative quotient is modelled on `ℚ` via the floor function.
* Side effects (alerts, file generation, sharing) are reified as values
  of an effect type; a function that performs effects returns the list
  of effects it performed, in order.
-/

namespace MCQGen

/-- Backend-shape MCQ record with fields question, answer, distractors:
the shape returned by the generation API and consumed by
MCQAssessmentScreen.js and by generateMCQFile in the pdf generator. -/
structure GeneratedMCQ where
  question : String
  answer : String
  distractors : List String
deriving DecidableEq, Repr

/-- Assessment-shape record with fields question, options, correctAnswer,
built by the formattedMcqs map in MCQAssessmentScreen.js (lines 24-28)
and by generateMCQFile (pdf generator, lines 19-25). -/
structure FormattedMCQ where
  question : String
  options : List String
  correctAnswer : String
deriving DecidableEq, Repr

instance : Inhabited FormattedMCQ := ⟨⟨"", [], ""⟩⟩

/-- Record transformation of MCQAssessmentScreen.js lines 24-28 (and,
identically, pdf generator lines 19-25): options is the correct answer
followed by the distractors, and correctAnswer copies answer. -/
def formatForAssessment (mcq : GeneratedMCQ) : FormattedMCQ :=
  { question := mcq.question
    options := mcq.answer :: mcq.distractors
    correctAnswer := mcq.answer }

/-- Shuffling step of MCQAssessmentScreen.js lines 31-37.  The JS code
sorts a copy of the options with the randomized comparator
(() => 0.5 - Math.random()); an ECMAScript sort returns the same
elements reordered by the engine's merge sort under whatever comparator
answers it sees.  We model the comparator as an arbitrary boolean
relation le, quantified over in the theorems, so every possible
comparator outcome is covered. -/
def shuffleMcq (le : String → String → Bool) (mcq : FormattedMCQ) : FormattedMCQ :=
  { mcq with options := mcq.options.mergeSort le }

/-- Score reduction of handleSubmit, MCQAssessmentScreen.js lines 60-62:
mcqs.reduce((acc, mcq, index) => acc + (selectedAnswers[index] === mcq.correctAnswer ? 1 : 0), 0).
The selected-answers object is modelled as a function from indices to
strings (handleSubmit only runs once every question has an answer). -/
def handleSubmitScore (mcqs : List FormattedMCQ) (selectedAnswers : ℕ → String) : ℕ :=
  mcqs.enum.foldl
    (fun acc p => acc + (if selectedAnswers p.1 = p.2.correctAnswer then 1 else 0)) 0

/-- Math.round for a nonnegative JS number: round half away from zero,
which on nonnegative rationals is the floor of x + 1/2. -/
def jsRound (x : ℚ) : ℤ := ⌊x + 1/2⌋

/-- Percentage computation of MCQResultScreen.js line 8:
total > 0 ? Math.round((score / total) * 100) : 0. -/
def screenPercentage (score total : ℕ) : ℤ :=
  if 0 < total then jsRound ((score : ℚ) / (total : ℚ) * 100) else 0

/-- Grade ladder of MCQResultScreen.js lines 10-14. -/
def screenGrade (percentage : ℤ) : String :=
  if 90 ≤ percentage then "A"
  else if 80 ≤ percentage then "B"
  else if 70 ≤ percentage then "C"
  else if 60 ≤ percentage then "D"
  else "F"

/-- Percentage computation of generateResultReport, pdf generator
line 131 (textually identical to the result screen's). -/
def reportPercentage (score total : ℕ) : ℤ :=
  if 0 < total then jsRound ((score : ℚ) / (total : ℚ) * 100) else 0

/-- Grade ladder of generateResultReport, pdf generator lines 132-136
(textually identical to the result screen's). -/
def reportGrade (percentage : ℤ) : String :=
  if 90 ≤ percentage then "A"
  else if 80 ≤ percentage then "B"
  else if 70 ≤ percentage then "C"
  else if 60 ≤ percentage then "D"
  else "F"

/-! ## Helper lemmas on the score reduction -/

/-- A fold that adds an indicator for each element counts the elements
satisfying the predicate. -/
lemma foldl_add_indicator {α : Type} (P : α → Prop) [DecidablePred P]
    (l : List α) (acc : ℕ) :
    l.foldl (fun a x => a + (if P x then 1 else 0)) acc
      = acc + l.countP (fun x => decide (P x)) := by
  induction l generalizing acc with
  | nil => simp
  | cons a l ih =>
      rw [List.foldl_cons, ih, List.countP_cons]
      by_cases h : P a
      · simp [h]
        omega
      · simp [h]

/-- Counting over an enumerated list equals counting over the index
range, reading elements back with getD. -/
lemma countP_enumFrom {α : Type} (q : ℕ → α → Bool) (d : α) :
    ∀ (l : List α) (n : ℕ),
      (l.enumFrom n).countP (fun p => q p.1 p.2)
        = (List.range l.length).countP (fun i => q (n + i) (l.getD i d))
  | [], _ => by simp
  | a :: l, n => by
      rw [List.enumFrom_cons, List.countP_cons, List.length_cons,
        List.range_succ_eq_map, List.countP_cons, List.countP_map,
        countP_enumFrom q d l (n + 1)]
      have hfun : ((fun i => q (n + i) ((a :: l).getD i d)) ∘ Nat.succ)
          = fun i => q (n + 1 + i) (l.getD i d) := by
        funext i
        show q (n + (i + 1)) ((a :: l).getD (i + 1) d) = q (n + 1 + i) (l.getD i d)
        rw [List.getD_cons_succ, show n + (i + 1) = n + 1 + i by omega]
      rw [hfun]
      simp

/-- The submitted score is the number of indices whose selected answer
equals that question's correct answer. -/
lemma handleSubmitScore_eq_countP (mcqs : List FormattedMCQ)
    (selected : ℕ → String) :
    handleSubmitScore mcqs selected
      = (List.range mcqs.length).countP
          (fun i => decide (selected i = (mcqs.getD i default).correctAnswer)) := by
  unfold handleSubmitScore
  rw [show mcqs.enum = mcqs.enumFrom 0 from rfl,
    foldl_add_indicator (fun p : ℕ × FormattedMCQ => selected p.1 = p.2.correctAnswer),
    countP_enumFrom (fun i x => decide (selected i = x.correctAnswer)) default mcqs 0]
  simp

/-! ## C1: the score counts exact string matches -/

/-- C1: for every list of question records and every assignment of user
answers, the submitted score equals the number of indices at which the
user answer is string-equal to the correct answer; and whenever
total > 0 the displayed percentage is round(score / total * 100). -/
theorem score_counts_exact_string_matches
    (mcqs : List FormattedMCQ) (selected : ℕ → String) (score total : ℕ) :
    handleSubmitScore mcqs selected
        = (List.range mcqs.length).countP
            (fun i => decide (selected i = (mcqs.getD i default).correctAnswer))
      ∧ (0 < total →
          screenPercentage score total = jsRound ((score : ℚ) / (total : ℚ) * 100)) := by
  refine ⟨handleSubmitScore_eq_countP mcqs selected, fun h => ?_⟩
  simp [screenPercentage, h]

/-- Witness for C1 at a concrete two-question assessment where the user
answers the first question correctly and the second incorrectly. -/
theorem score_counts_exact_string_matches_witness :
    0 < 2
      ∧ handleSubmitScore
            [⟨"q1", ["a", "b"], "a"⟩, ⟨"q2", ["c", "d"], "c"⟩]
            (fun i => if i = 0 then "a" else "d")
          = (List.range 2).countP
              (fun i => decide ((if i = 0 then "a" else "d")
                = (([⟨"q1", ["a", "b"], "a"⟩, ⟨"q2", ["c", "d"], "c"⟩]
                    : List FormattedMCQ).getD i default).correctAnswer))
      ∧ screenPercentage 1 2 = jsRound ((1 : ℚ) / (2 : ℚ) * 100) :=
  ⟨by decide,
    (score_counts_exact_string_matches
      [⟨"q1", ["a", "b"], "a"⟩, ⟨"q2", ["c", "d"], "c"⟩]
      (fun i => if i = 0 then "a" else "d") 1 2).1,
    (score_counts_exact_string_matches
      [⟨"q1", ["a", "b"], "a"⟩, ⟨"q2", ["c", "d"], "c"⟩]
      (fun i => if i = 0 then "a" else "d") 1 2).2 (by decide)⟩

/-! ## C2: grade thresholds -/

/-- C2: the grade ladder partitions the integers at 90, 80, 70 and 60;
in particular 89 maps to B and 90 to A; and the result screen and the
report generator compute the same grade for the same score and total. -/
theorem grade_thresholds_partition :
    (∀ p : ℤ,
        (screenGrade p = "A" ↔ 90 ≤ p)
      ∧ (screenGrade p = "B" ↔ 80 ≤ p ∧ p < 90)
      ∧ (screenGrade p = "C" ↔ 70 ≤ p ∧ p < 80)
      ∧ (screenGrade p = "D" ↔ 60 ≤ p ∧ p < 70)
      ∧ (screenGrade p = "F" ↔ p < 60))
    ∧ screenGrade 89 = "B"
    ∧ screenGrade 90 = "A"
    ∧ (∀ score total : ℕ,
        screenGrade (screenPercentage score total)
          = reportGrade (reportPercentage score total)) := by
  refine ⟨fun p => ?_, by decide, by decide, fun score total => rfl⟩
  unfold screenGrade
  split_ifs <;> refine ⟨⟨?_, ?_⟩, ⟨?_, ?_⟩, ⟨?_, ?_⟩, ⟨?_, ?_⟩, ⟨?_, ?_⟩⟩ <;>
    simp_all <;> omega

/-! ## C3: score bounds and monotonicity -/

/-- C3: the submitted score lies between 0 and the number of questions,
and correcting one answer (making it equal to that question's correct
answer while leaving every other answer unchanged) cannot decrease it. -/
theorem score_bounded_and_monotone
    (mcqs : List FormattedMCQ) (selected selectedFixed : ℕ → String) (j : ℕ)
    (hfix : selectedFixed j = (mcqs.getD j default).correctAnswer)
    (hother : ∀ i, i ≠ j → selectedFixed i = selected i) :
    0 ≤ handleSubmitScore mcqs selected
      ∧ handleSubmitScore mcqs selected ≤ mcqs.length
      ∧ handleSubmitScore mcqs selected ≤ handleSubmitScore mcqs selectedFixed := by
  refine ⟨Nat.zero_le _, ?_, ?_⟩
  · rw [handleSubmitScore_eq_countP]
    exact le_trans (List.countP_le_length _) (le_of_eq (List.length_range _))
  · rw [handleSubmitScore_eq_countP, handleSubmitScore_eq_countP]
    apply List.countP_mono_left
    intro i _ h
    by_cases hij : i = j
    · subst hij
      simp [hfix]
    · rw [decide_eq_true_eq] at h ⊢
      rw [hother i hij]
      exact h

/-- Witness for C3: one question whose answer is a, the user first
selects b, then the corrected assignment selects a; the score rises
from 0 to 1 and stays within bounds. -/
theorem score_bounded_and_monotone_witness :
    (0 ≤ handleSubmitScore [⟨"q", ["a", "b"], "a"⟩] (fun _ => "b")
        ∧ handleSubmitScore [⟨"q", ["a", "b"], "a"⟩] (fun _ => "b") ≤ 1
        ∧ handleSubmitScore [⟨"q", ["a", "b"], "a"⟩] (fun _ => "b")
            ≤ handleSubmitScore [⟨"q", ["a", "b"], "a"⟩]
                (fun i => if i = 0 then "a" else "b"))
      ∧ handleSubmitScore [⟨"q", ["a", "b"], "a"⟩] (fun _ => "b") = 0
      ∧ handleSubmitScore [⟨"q", ["a", "b"], "a"⟩]
          (fun i => if i = 0 then "a" else "b") = 1 :=
  ⟨by
    have hlen : ([⟨"q", ["a", "b"], "a"⟩] : List FormattedMCQ).length = 1 := rfl
    exact hlen ▸ score_bounded_and_monotone
      [⟨"q", ["a", "b"], "a"⟩] (fun _ => "b")
      (fun i => if i = 0 then "a" else "b") 0
      (by decide) (fun i hi => by simp [hi]),
    by decide, by decide⟩

/-! ## C8: zero total is guarded in both percentage computations -/

/-- C8: with total = 0 both the result screen and the report generator
show percentage 0; the division is never reached because both guard it
with total > 0. -/
theorem percentage_zero_total_guard (score : ℕ) :
    screenPercentage score 0 = 0 ∧ reportPercentage score 0 = 0 := by
  constructor <;> simp [screenPercentage, reportPercentage]

/-! ## Export helpers (pdf generator, src/unnamed/part_001)

The file contents below transliterate the template strings of
generateMCQFile and generateResultReport: all dynamic pieces (indices,
option letters, answers, the grade/score/percentage header, the
conditional Correct Answer block) and the join separators are exactly
those of the source; the inert indentation whitespace of the JS template
literals is collapsed. -/

/-- Model of String.fromCharCode for a single code point. -/
def fromCharCode (n : ℕ) : String := String.singleton (Char.ofNat n)

/-- Model of JS String.prototype.toUpperCase on the characters. -/
def jsToUpperCase (s : String) : String := String.mk (s.data.map Char.toUpper)

/-- Option line of the txt export, pdf generator line 95. -/
def mcqOptionLine (p : ℕ × String) : String :=
  fromCharCode (65 + p.1) ++ ". " ++ p.2

/-- Question block of the txt export, pdf generator lines 91-96. -/
def mcqTxtQuestionBlock (p : ℕ × FormattedMCQ) : String :=
  "\nQuestion " ++ toString (p.1 + 1) ++ ": " ++ p.2.question
    ++ "\n\nOptions:\n"
    ++ String.intercalate "\n" (p.2.options.enum.map mcqOptionLine)
    ++ "\n"

/-- Text content of the MCQ download, pdf generator lines 87-101. -/
def mcqTxtContent (formattedMcqs : List FormattedMCQ) : String :=
  "\nMCQ Questions\n=================================\n\n"
    ++ String.intercalate "\n\n" (formattedMcqs.enum.map mcqTxtQuestionBlock)
    ++ "\n\nAnswer Key\n==========\n"
    ++ String.intercalate "\n"
        (formattedMcqs.enum.map (fun p =>
          "Question " ++ toString (p.1 + 1) ++ ": " ++ p.2.correctAnswer))
    ++ "\n"

/-- Style block of the MCQ pdf export, pdf generator lines 35-50. -/
def mcqHtmlStyle : String :=
  "body \x7b font-family: Arial, sans-serif; padding: 20px; \x7d "
    ++ ".header \x7b text-align: center; margin-bottom: 30px; \x7d "
    ++ ".question \x7b margin-bottom: 20px; padding: 15px; "
    ++ "background-color: #f8f9fa; border-left: 4px solid #007AFF; \x7d "
    ++ ".options \x7b margin-left: 20px; \x7d "
    ++ ".answer-key \x7b margin-top: 30px; border-top: 2px dashed #007AFF; "
    ++ "padding-top: 20px; \x7d"

/-- Option paragraph of the pdf export, pdf generator lines 62-64. -/
def mcqHtmlOption (p : ℕ × String) : String :=
  "<p>" ++ fromCharCode (65 + p.1) ++ ". " ++ p.2 ++ "</p>"

/-- Question block of the pdf export, pdf generator lines 58-67. -/
def mcqHtmlQuestionBlock (p : ℕ × FormattedMCQ) : String :=
  "<div class=\"question\"><p><strong>Question " ++ toString (p.1 + 1)
    ++ ":</strong> " ++ p.2.question ++ "</p><div class=\"options\">"
    ++ String.join (p.2.options.enum.map mcqHtmlOption)
    ++ "</div></div>"

/-- HTML content of the MCQ pdf download, pdf generator lines 29-77. -/
def mcqHtmlContent (title : String) (formattedMcqs : List FormattedMCQ) : String :=
  "<!DOCTYPE html><html><head><meta charset=\"utf-8\"><title>MCQ Questions</title><style>"
    ++ mcqHtmlStyle
    ++ "</style></head><body><div class=\"header\"><h1>Multiple Choice Questions</h1><h2>"
    ++ jsToUpperCase title
    ++ "</h2></div>"
    ++ String.join (formattedMcqs.enum.map mcqHtmlQuestionBlock)
    ++ "<div class=\"answer-key\"><h2>Answer Key</h2>"
    ++ String.join (formattedMcqs.enum.map (fun p =>
        "<p><strong>Question " ++ toString (p.1 + 1) ++ ":</strong> "
          ++ p.2.correctAnswer ++ "</p>"))
    ++ "</div></body></html>"

/-- Observable effects of the export helpers: user-visible alerts, file
generation through the print service or the filesystem, and the share
sheet. -/
inductive ExportEffect where
  | alert (title message : String)
  | printToFile (html : String)
  | writeTextFile (content : String)
  | share
deriving DecidableEq, Repr

/-- Discriminator: is this effect a user-visible alert? -/
def ExportEffect.isAlert : ExportEffect → Bool
  | .alert _ _ => true
  | _ => false

/-- Discriminator: does this effect generate a file (pdf print or text
write)? -/
def ExportEffect.isFileGeneration : ExportEffect → Bool
  | .printToFile _ => true
  | .writeTextFile _ => true
  | _ => false

/-- Device environment the export helpers consult:
Sharing.isAvailableAsync(). -/
structure ExportEnv where
  sharingAvailable : Bool
deriving DecidableEq, Repr

/-- Result of a generateMCQFile call: the effects performed, in order,
and the boolean the JS function returns. -/
structure MCQFileRun where
  effects : List ExportEffect
  returnValue : Bool
deriving DecidableEq, Repr

/-- Embedding of generateMCQFile (pdf generator lines 8-125).  The
argument is an Option so that a missing (undefined) list is
representable: the JS guard (!mcqs || mcqs.length === 0) is exactly
emptiness of mcqs.getD [].  The record transformation of lines 19-25 is
the same map as the assessment screen's, hence formatForAssessment.
The happy path generates the file (pdf via the print service, anything
else via a text write), then shares it if sharing is available and
alerts otherwise. -/
def generateMCQFile (mcqs : Option (List GeneratedMCQ)) (format : String)
    (title : String) (env : ExportEnv) : MCQFileRun :=
  if (mcqs.getD []).isEmpty then
    { effects := [.alert "Error" "No MCQs to download"], returnValue := false }
  else
    let formattedMcqs := (mcqs.getD []).map formatForAssessment
    let fileEffect :=
      if format = "pdf" then ExportEffect.printToFile (mcqHtmlContent title formattedMcqs)
      else ExportEffect.writeTextFile (mcqTxtContent formattedMcqs)
    if env.sharingAvailable then
      { effects := [fileEffect, .share], returnValue := true }
    else
      { effects := [fileEffect, .alert "Error" "Sharing is not available on this device"],
        returnValue := false }

/-- Result record handed to MCQResultScreen and generateResultReport:
a formatted MCQ together with the user's answer (MCQAssessmentScreen.js
lines 67-70). -/
structure ResultRecord where
  question : String
  options : List String
  correctAnswer : String
  userAnswer : String
deriving DecidableEq, Repr

/-- Per-question block of the txt report, pdf generator lines 261-265. -/
def reportTxtResultBlock (p : ℕ × ResultRecord) : String :=
  "\nQuestion " ++ toString (p.1 + 1) ++ ": " ++ p.2.question
    ++ "\nYour Answer: " ++ p.2.userAnswer ++ " "
    ++ (if p.2.userAnswer = p.2.correctAnswer then "(Correct)" else "(Incorrect)")
    ++ "\n"
    ++ (if p.2.userAnswer = p.2.correctAnswer then ""
        else "Correct Answer: " ++ p.2.correctAnswer)
    ++ "\n"

/-- Text content of the assessment report, pdf generator lines 250-266. -/
def reportTxtContent (grade : String) (score total : ℕ) (percentage : ℤ)
    (results : List ResultRecord) : String :=
  "\nASSESSMENT RESULTS\n=================\n\nGrade: " ++ grade
    ++ "\nScore: " ++ toString score ++ "/" ++ toString total
    ++ "\nPercentage: " ++ toString percentage
    ++ "%\n\nDETAILED RESULTS\n===============\n\n"
    ++ String.intercalate "\n" (results.enum.map reportTxtResultBlock)
    ++ "\n"

/-- Style block of the pdf report, pdf generator lines 145-209. -/
def reportHtmlStyle : String :=
  "body \x7b font-family: system-ui, -apple-system, sans-serif; margin: 0; "
    ++ "padding: 20px; color: #333; \x7d "
    ++ ".header \x7b text-align: center; margin-bottom: 30px; \x7d "
    ++ ".score-card \x7b text-align: center; margin: 20px 0; padding: 20px; "
    ++ "border: 2px solid #007AFF; border-radius: 10px; background-color: #f8f9fa; \x7d "
    ++ ".grade \x7b font-size: 24px; font-weight: bold; color: #007AFF; \x7d "
    ++ ".score \x7b font-size: 48px; font-weight: bold; margin: 10px 0; \x7d "
    ++ ".percentage \x7b font-size: 20px; margin-top: 10px; \x7d "
    ++ ".good-score \x7b color: green; \x7d "
    ++ ".bad-score \x7b color: #ff6b6b; \x7d "
    ++ ".question \x7b padding: 15px; margin-bottom: 15px; background-color: #f8f9fa; "
    ++ "border-left: 4px solid #007AFF; border-radius: 5px; \x7d "
    ++ ".question-text \x7b font-weight: bold; margin-bottom: 10px; \x7d "
    ++ ".user-answer \x7b margin: 5px 0; padding-left: 10px; \x7d "
    ++ ".correct \x7b color: green; border-left: 3px solid green; padding-left: 8px; \x7d "
    ++ ".incorrect \x7b color: #ff6b6b; border-left: 3px solid #ff6b6b; padding-left: 8px; \x7d"

/-- Per-question block of the pdf report, pdf generator lines 223-237. -/
def reportHtmlResultBlock (p : ℕ × ResultRecord) : String :=
  "<div class=\"question\"><p class=\"question-text\">" ++ toString (p.1 + 1)
    ++ ". " ++ p.2.question
    ++ "</p><div><p>Your Answer:</p><p class=\"user-answer "
    ++ (if p.2.userAnswer = p.2.correctAnswer then "correct" else "incorrect")
    ++ "\">" ++ p.2.userAnswer ++ "</p>"
    ++ (if p.2.userAnswer = p.2.correctAnswer then ""
        else "<p>Correct Answer:</p><p class=\"user-answer correct\">"
          ++ p.2.correctAnswer ++ "</p>")
    ++ "</div></div>"

/-- HTML content of the pdf report, pdf generator lines 140-240. -/
def reportHtmlContent (grade : String) (score total : ℕ) (percentage : ℤ)
    (results : List ResultRecord) : String :=
  "<!DOCTYPE html><html><head><meta name=\"viewport\" content=\"width=device-width, "
    ++ "initial-scale=1.0, maximum-scale=1.0, minimum-scale=1.0, user-scalable=no\" /><style>"
    ++ reportHtmlStyle
    ++ "</style></head><body><div class=\"header\"><h1>Assessment Results</h1>"
    ++ "<div class=\"score-card\"><p class=\"grade\">Grade: " ++ grade
    ++ "</p><p class=\"score\">" ++ toString score ++ "/" ++ toString total
    ++ "</p><p class=\"percentage "
    ++ (if 70 ≤ percentage then "good-score" else "bad-score")
    ++ "\">" ++ toString percentage ++ "%</p></div></div><h2>Detailed Results</h2>"
    ++ String.join (results.enum.map reportHtmlResultBlock)
    ++ "</body></html>"

/-- Result of a generateResultReport call: the effects performed in
order (the JS function returns nothing). -/
structure ReportRun where
  effects : List ExportEffect
deriving DecidableEq, Repr

/-- Embedding of generateResultReport (pdf generator lines 128-287).
Note the function has no emptiness guard on results: it always computes
percentage and grade (division guarded by total > 0), always generates
the report file, then shares it if sharing is available and alerts
otherwise. -/
def generateResultReport (results : List ResultRecord) (score total : ℕ)
    (format : String) (env : ExportEnv) : ReportRun :=
  let percentage := reportPercentage score total
  let grade := reportGrade percentage
  let fileEffect :=
    if format = "pdf" then
      ExportEffect.printToFile (reportHtmlContent grade score total percentage results)
    else
      ExportEffect.writeTextFile (reportTxtContent grade score total percentage results)
  if env.sharingAvailable then
    { effects := [fileEffect, .share] }
  else
    { effects := [fileEffect,
        .alert "Sharing not available" "Sharing is not available on your device"] }

/-! ## C4: behaviour of the export functions on empty input -/

/-- Counterexample to C4 as stated: generateResultReport called with an
empty result list does not short-circuit and shows no message; it
performs a file generation followed by a share.  (generateMCQFile does
guard, but the claim asserts the guard for both export functions.) -/
theorem export_empty_shortcircuit_cex :
    (generateResultReport [] 0 0 "txt" ⟨true⟩).effects.countP ExportEffect.isAlert = 0
      ∧ (generateResultReport [] 0 0 "txt" ⟨true⟩).effects.countP
          ExportEffect.isFileGeneration = 1
      ∧ (generateResultReport [] 0 0 "txt" ⟨true⟩).effects.getLast? = some .share := by
  refine ⟨?_, ?_, ?_⟩ <;> rfl

/-- Amended C4: generateMCQFile short-circuits on an empty or missing
question list, alerting before any file is generated; generateResultReport
has no such guard: on an empty result list it does not crash but
proceeds, its first effect being a file generation. -/
theorem export_empty_shortcircuit_amended
    (format title : String) (env : ExportEnv) :
    (∀ mcqs : Option (List GeneratedMCQ), (mcqs.getD []).isEmpty = true →
        generateMCQFile mcqs format title env
          = { effects := [.alert "Error" "No MCQs to download"], returnValue := false })
      ∧ (∀ score total : ℕ, ∃ fx rest,
          (generateResultReport [] score total format env).effects = fx :: rest
            ∧ ExportEffect.isFileGeneration fx = true) := by
  constructor
  · intro mcqs hempty
    unfold generateMCQFile
    rw [if_pos hempty]
  · intro score total
    unfold generateResultReport
    by_cases hfmt : format = "pdf" <;> by_cases hsh : env.sharingAvailable <;>
      simp [hfmt, hsh, ExportEffect.isFileGeneration]

/-- Witness for C4 (amended) at mcqs = some [] and a concrete report
call. -/
theorem export_empty_shortcircuit_amended_witness :
    generateMCQFile (some []) "txt" "Generated MCQs" ⟨true⟩
        = { effects := [.alert "Error" "No MCQs to download"], returnValue := false }
      ∧ ∃ fx rest,
          (generateResultReport [] 0 0 "txt" ⟨true⟩).effects = fx :: rest
            ∧ ExportEffect.isFileGeneration fx = true :=
  ⟨(export_empty_shortcircuit_amended "txt" "Generated MCQs" ⟨true⟩).1 (some []) (by decide),
    (export_empty_shortcircuit_amended "txt" "Generated MCQs" ⟨true⟩).2 0 0⟩

/-! ## C5: multiplicity of the correct answer in the options -/

/-- Counterexample to C5 as stated: if a distractor equals the answer
(nothing prevents this), the assembled options list contains the correct
answer twice, not exactly once. -/
theorem options_contain_answer_once_cex :
    ¬ ((formatForAssessment ⟨"q", "x", ["x", "y"]⟩).options.count
        (formatForAssessment ⟨"q", "x", ["x", "y"]⟩).correctAnswer = 1) := by
  decide

/-- Amended C5: the assembled options list always contains the correct
answer at least once (at the head, before shuffling), and contains it
exactly once precisely when the answer does not also occur among the
distractors — which the code does not enforce. -/
theorem options_contain_answer_once_amended (mcq : GeneratedMCQ) :
    1 ≤ (formatForAssessment mcq).options.count (formatForAssessment mcq).correctAnswer
      ∧ ((formatForAssessment mcq).options.count (formatForAssessment mcq).correctAnswer = 1
          ↔ mcq.answer ∉ mcq.distractors) := by
  have h : (formatForAssessment mcq).options.count (formatForAssessment mcq).correctAnswer
      = mcq.distractors.count mcq.answer + 1 := List.count_cons_self _ _
  rw [h]
  refine ⟨Nat.le_add_left 1 _, ?_⟩
  rw [show (mcq.distractors.count mcq.answer + 1 = 1)
      ↔ (mcq.distractors.count mcq.answer = 0) from by omega]
  exact List.count_eq_zero

/-! ## C9: the shuffle is a permutation -/

/-- C9: whatever the randomized comparator does, the shuffled options
are a permutation (equal multiset) of the answer followed by the
distractors, the correctAnswer field still equals the answer, and the
correct answer is therefore among the displayed options. -/
theorem shuffle_is_permutation (le : String → String → Bool) (mcq : GeneratedMCQ) :
    ((shuffleMcq le (formatForAssessment mcq)).options : Multiset String)
        = ((mcq.answer :: mcq.distractors : List String) : Multiset String)
      ∧ (shuffleMcq le (formatForAssessment mcq)).correctAnswer = mcq.answer
      ∧ mcq.answer ∈ (shuffleMcq le (formatForAssessment mcq)).options := by
  have hperm : ((shuffleMcq le (formatForAssessment mcq)).options).Perm
      (mcq.answer :: mcq.distractors) := List.mergeSort_perm _ le
  exact ⟨Multiset.coe_eq_coe.mpr hperm, rfl,
    hperm.mem_iff.mpr (List.mem_cons_self _ _)⟩

/-! ## C10: round trip between the two MCQ record shapes -/

/-- Screen-shape MCQ record with fields question, options,
correct_answer, as consumed by MCQScreen.js. -/
structure ScreenMCQ where
  question : String
  options : List String
  correct_answer : String
deriving DecidableEq, Repr

/-- Embedding of formatMCQsForDownload (MCQScreen.js lines 273-279),
acting on one record: the answer is the correct_answer and the
distractors are the options with every occurrence of the correct_answer
filtered out. -/
def formatMCQForDownload (mcq : ScreenMCQ) : GeneratedMCQ :=
  { question := mcq.question
    answer := mcq.correct_answer
    distractors := mcq.options.filter (fun option => decide (option ≠ mcq.correct_answer)) }

/-- The elements kept by the filter plus the occurrences of the removed
element account for the whole list. -/
lemma length_filter_ne_add_count (a : String) (l : List String) :
    (l.filter (fun x => decide (x ≠ a))).length + l.count a = l.length := by
  induction l with
  | nil => simp
  | cons b l ih =>
      by_cases hb : b = a
      · subst hb
        simp only [decide_not] at ih
        simp [List.filter_cons]
        omega
      · simp only [decide_not] at ih
        simp [List.filter_cons, hb, Ne.symm hb]
        omega

/-- Filtering out a different element does not change a count. -/
lemma count_filter_ne (a x : String) (l : List String) (hx : x ≠ a) :
    (l.filter (fun y => decide (y ≠ a))).count x = l.count x :=
  List.count_filter (by simpa using hx)

/-- C10: if the options list contains its correct answer exactly once,
formatting for download and recombining answer with distractors yields
the same multiset of options; if the correct answer occurs more than
once, the recombined list is strictly shorter. -/
theorem format_download_roundtrip (mcq : ScreenMCQ) :
    (mcq.options.count mcq.correct_answer = 1 →
        ((formatForAssessment (formatMCQForDownload mcq)).options : Multiset String)
          = (mcq.options : Multiset String))
      ∧ (1 < mcq.options.count mcq.correct_answer →
          (formatForAssessment (formatMCQForDownload mcq)).options.length
            < mcq.options.length) := by
  constructor
  · intro h1
    rw [Multiset.coe_eq_coe, List.perm_iff_count]
    intro x
    show (mcq.correct_answer
        :: mcq.options.filter (fun option => decide (option ≠ mcq.correct_answer))).count x
      = mcq.options.count x
    by_cases hx : x = mcq.correct_answer
    · subst hx
      rw [List.count_cons_self]
      have h0 : (mcq.options.filter
          (fun option => decide (option ≠ mcq.correct_answer))).count mcq.correct_answer
            = 0 := by
        rw [List.count_eq_zero]
        intro hmem
        have hkeep := List.of_mem_filter hmem
        simp at hkeep
      rw [h0, h1]
    · rw [List.count_cons_of_ne hx, count_filter_ne _ _ _ hx]
  · intro h2
    have hlen := length_filter_ne_add_count mcq.correct_answer mcq.options
    show (mcq.correct_answer
        :: mcq.options.filter (fun option => decide (option ≠ mcq.correct_answer))).length
      < mcq.options.length
    rw [List.length_cons]
    omega

/-- Witness for C10: an options list with the correct answer once round
trips to the same multiset; one with the correct answer twice loses an
element. -/
theorem format_download_roundtrip_witness :
    ((formatForAssessment (formatMCQForDownload ⟨"q", ["x", "y"], "x"⟩)).options
          : Multiset String)
        = ((["x", "y"] : List String) : Multiset String)
      ∧ (formatForAssessment (formatMCQForDownload ⟨"q", ["x", "x", "y"], "x"⟩)).options.length
          < 3 :=
  ⟨(format_download_roundtrip ⟨"q", ["x", "y"], "x"⟩).1 (by decide),
    (format_download_roundtrip ⟨"q", ["x", "x", "y"], "x"⟩).2 (by decide)⟩

/-! ## API wrapper generateMCQsFromAPI (apiService.js lines 164-227) -/

/-- Helper for substring search: does the first character list start
with the second? -/
def startsWithChars : List Char → List Char → Bool
  | _, [] => true
  | [], _ :: _ => false
  | c :: cs, d :: ds => c = d && startsWithChars cs ds

/-- Substring containment on character lists. -/
def containsChars : List Char → List Char → Bool
  | [], needle => needle.isEmpty
  | c :: cs, needle => startsWithChars (c :: cs) needle || containsChars cs needle

/-- Model of JS String.prototype.includes, used by the catch block of
generateMCQsFromAPI to classify error messages. -/
def strIncludes (s sub : String) : Bool := containsChars s.data sub.data

/-- Outcome of the single fetch that generateMCQsFromAPI races against
its 60-second timer: the timer fires first, the fetch itself rejects
(network error), or an HTTP response arrives. -/
inductive FetchOutcome where
  | timeoutHit
  | networkFailure (message : String)
  | httpResponse (ok : Bool) (status : ℕ) (errorText : String)
      (mcqs : Option (List GeneratedMCQ))
deriving DecidableEq, Repr

/-- Failure cases named by C6: request timeout, network error, or
non-ok HTTP status. -/
def FetchOutcome.isFailure : FetchOutcome → Bool
  | .timeoutHit => true
  | .networkFailure _ => true
  | .httpResponse ok _ _ _ => !ok

/-- Discriminator for a thrown (exceptional) result. -/
def isThrown : Except String (List GeneratedMCQ) → Bool
  | .error _ => true
  | .ok _ => false

/-- Embedding of generateMCQsFromAPI (apiService.js lines 164-227).
The NetInfo connectivity check happens before any fetch; then the
function makes one fetch, raced against a 60-second timer.  A non-ok
response throws inside the try block; the catch block rewraps every
error message (timeout messages, the React-Native network failure
message, anything else) and rethrows.  The result pairs the value
returned or thrown with the number of fetch attempts made. -/
def generateMCQsFromAPI (connected : Bool) (outcome : FetchOutcome) :
    Except String (List GeneratedMCQ) × ℕ :=
  if ¬ connected then
    (.error "No internet connection. Please check your network and try again.", 0)
  else
    let inner : Except String (List GeneratedMCQ) :=
      match outcome with
      | .timeoutHit => .error "Request timeout after 60 seconds"
      | .networkFailure message => .error message
      | .httpResponse ok status errorText mcqs =>
          if ¬ ok then
            .error ("Server error (" ++ toString status ++ "): "
              ++ (if errorText = "" then "Unknown error" else errorText))
          else .ok (mcqs.getD [])
    match inner with
    | .ok v => (.ok v, 1)
    | .error message =>
        if strIncludes message "timeout" then
          (.error "The server took too long to respond. Try with a shorter text or fewer questions.", 1)
        else if strIncludes message "Network request failed" then
          (.error "Cannot connect to server. Please check if the server is running and try again.", 1)
        else
          (.error ("Connection error: " ++ message), 1)

/-- C6: with connectivity, every failure outcome (timeout, network
error, non-ok status) makes generateMCQsFromAPI throw after exactly one
fetch attempt; and no call ever makes more than one fetch attempt, so
no failure path retries. -/
theorem api_failures_throw_after_one_fetch
    (outcome : FetchOutcome) (hfail : outcome.isFailure = true) :
    (isThrown (generateMCQsFromAPI true outcome).1 = true
        ∧ (generateMCQsFromAPI true outcome).2 = 1)
      ∧ (∀ (connected : Bool) (o : FetchOutcome),
          (generateMCQsFromAPI connected o).2 ≤ 1) := by
  constructor
  · cases outcome with
    | timeoutHit =>
        exact ⟨rfl, rfl⟩
    | networkFailure message =>
        constructor
        · simp [generateMCQsFromAPI]
          split_ifs <;> rfl
        · simp [generateMCQsFromAPI]
          split_ifs <;> rfl
    | httpResponse ok status errorText mcqs =>
        have hok : ok = false := by
          simpa [FetchOutcome.isFailure] using hfail
        subst hok
        constructor
        · simp [generateMCQsFromAPI]
          split_ifs <;> rfl
        · simp [generateMCQsFromAPI]
          split_ifs <;> rfl
  · intro connected o
    cases connected with
    | false => exact Nat.zero_le 1
    | true =>
        cases o with
        | timeoutHit => exact le_refl 1
        | networkFailure message =>
            simp only [generateMCQsFromAPI]
            simp only [not_true, if_false]
            split_ifs <;> exact le_refl 1
        | httpResponse ok status errorText mcqs =>
            cases ok with
            | false =>
                simp [generateMCQsFromAPI]
                split_ifs <;> exact le_refl 1
            | true => exact le_refl 1

/-- Witness for C6 at the timeout outcome: the call throws and made
exactly one fetch attempt. -/
theorem api_failures_throw_after_one_fetch_witness :
    isThrown (generateMCQsFromAPI true .timeoutHit).1 = true
      ∧ (generateMCQsFromAPI true .timeoutHit).2 = 1 :=
  ⟨(api_failures_throw_after_one_fetch .timeoutHit (by decide)).1.1,
    (api_failures_throw_after_one_fetch .timeoutHit (by decide)).1.2⟩

/-! ## WebSocket file processing, processFileWithWebSocket
(apiService.js lines 96-162)

The handlers installed by processFileWithWebSocket act on two pieces of
state: whether the progress socket is open and whether the returned
promise is settled.  Each handler below is the embedding of the
corresponding callback; theorems quantify over the state they fire in.
The 60-second timer is modelled as the event of its callback firing. -/

/-- Message received on the progress socket: a status field and a
message field (the empty string models a missing or falsy message). -/
structure WSMessage where
  status : String
  message : String
deriving DecidableEq, Repr

/-- Settlement state of the promise returned by
processFileWithWebSocket.  JS promises settle at most once; resolve and
reject are no-ops afterwards. -/
inductive PromiseState where
  | pending
  | resolved (data : WSMessage)
  | rejected (message : String)
deriving DecidableEq, Repr

/-- Joint state of the progress socket and the returned promise. -/
structure WSRunState where
  socketOpen : Bool
  promise : PromiseState
deriving DecidableEq, Repr

/-- disconnect (apiService.js lines 73-77): closes the socket only if
it is currently open; otherwise does nothing. -/
def wsDisconnect (s : WSRunState) : WSRunState :=
  if s.socketOpen then { s with socketOpen := false } else s

/-- resolve: settles the promise with the data unless already settled. -/
def wsResolve (s : WSRunState) (data : WSMessage) : WSRunState :=
  match s.promise with
  | .pending => { s with promise := .resolved data }
  | _ => s

/-- reject: settles the promise with an error message unless already
settled. -/
def wsReject (s : WSRunState) (message : String) : WSRunState :=
  match s.promise with
  | .pending => { s with promise := .rejected message }
  | _ => s

/-- onMessage callback (lines 121-133): a message with status complete
disconnects the socket and resolves the promise with the message data;
status error disconnects and rejects with the server message (or the
default when the message field is falsy); any other status only logs
progress. -/
def wsOnMessage (s : WSRunState) (data : WSMessage) : WSRunState :=
  if data.status = "complete" then wsResolve (wsDisconnect s) data
  else if data.status = "error" then
    wsReject (wsDisconnect s)
      (if data.message = "" then "Error processing file" else data.message)
  else s

/-- onError callback (lines 134-138): rejects the promise, then
disconnects the socket. -/
def wsOnError (s : WSRunState) : WSRunState :=
  wsDisconnect (wsReject s "WebSocket error: Connection failed")

/-- Timer callback installed at the call (lines 151-156), firing 60
seconds later: if the socket is still open, it is disconnected and the
promise rejected with the timeout error; otherwise nothing happens. -/
def wsOnTimeout (s : WSRunState) : WSRunState :=
  if s.socketOpen then
    wsReject (wsDisconnect s) "File processing timed out after 60 seconds"
  else s

/-- C7: from any state in which the socket is open and the promise
pending, each terminal event both settles the promise and leaves the
socket closed: a complete message resolves with the message data, an
error message rejects, a socket error rejects, and the timer firing
while the socket is open disconnects and rejects with the timeout
error.  No terminal event leaves the socket open. -/
theorem websocket_teardown_on_terminal_events
    (s : WSRunState) (data : WSMessage)
    (hopen : s.socketOpen = true) (hpending : s.promise = .pending) :
    (data.status = "complete" →
        wsOnMessage s data = ⟨false, .resolved data⟩)
      ∧ (data.status = "error" →
          (wsOnMessage s data).socketOpen = false
            ∧ (wsOnMessage s data).promise
                = .rejected
                    (if data.message = "" then "Error processing file"
                      else data.message))
      ∧ ((wsOnError s).socketOpen = false
          ∧ (wsOnError s).promise = .rejected "WebSocket error: Connection failed")
      ∧ ((wsOnTimeout s).socketOpen = false
          ∧ (wsOnTimeout s).promise
              = .rejected "File processing timed out after 60 seconds") := by
  obtain ⟨so, pr⟩ := s
  simp only at hopen hpending
  subst hopen
  subst hpending
  refine ⟨fun hc => ?_, fun he => ?_, ⟨rfl, rfl⟩, ⟨rfl, rfl⟩⟩
  · simp [wsOnMessage, hc, wsDisconnect, wsResolve]
  · have hne : data.status ≠ "complete" := by
      rw [he]
      decide
    constructor <;> simp [wsOnMessage, he, hne, wsDisconnect, wsReject]

/-- Witness for C7 in the state socket-open, promise-pending, at a
complete message, an error message, a socket error and a timer firing. -/
theorem websocket_teardown_on_terminal_events_witness :
    wsOnMessage ⟨true, .pending⟩ ⟨"complete", ""⟩
        = ⟨false, .resolved ⟨"complete", ""⟩⟩
      ∧ (wsOnMessage ⟨true, .pending⟩ ⟨"error", "bad file"⟩).socketOpen = false
      ∧ ((wsOnError ⟨true, .pending⟩).socketOpen = false
          ∧ (wsOnError ⟨true, .pending⟩).promise
              = .rejected "WebSocket error: Connection failed")
      ∧ ((wsOnTimeout ⟨true, .pending⟩).socketOpen = false
          ∧ (wsOnTimeout ⟨true, .pending⟩).promise
              = .rejected "File processing timed out after 60 seconds") :=
  ⟨(websocket_teardown_on_terminal_events ⟨true, .pending⟩ ⟨"complete", ""⟩
      rfl rfl).1 rfl,
    ((websocket_teardown_on_terminal_events ⟨true, .pending⟩ ⟨"error", "bad file"⟩
      rfl rfl).2.1 rfl).1,
    (websocket_teardown_on_terminal_events ⟨true, .pending⟩ ⟨"error", "bad file"⟩
      rfl rfl).2.2.1,
    (websocket_teardown_on_terminal_events ⟨true, .pending⟩ ⟨"error", "bad file"⟩
      rfl rfl).2.2.2⟩

end MCQGen

